import Mathlib

/-
  Verification of the Jicoo → LINE webhook notifier
  (source: src/app/api/webhook/route.ts).

  The handler is a single Next.js route:
    * `POST` parses the request body as JSON, calls
      `processAndSendNotification`, and answers 200/success; any exception
      escaping the dispatcher (or a body-parse failure) is answered
      500/error.
    * `processAndSendNotification` extracts display fields from the
      loosely-structured payload with ordered `||` fallbacks, formats a
      fixed-template text, and pushes it over the LINE messaging API; the
      client construction and the push call sit inside a try/catch whose
      catch only logs.

  The embedding models parsed JSON values (`JsValue`), JavaScript
  truthiness, `||`-chains, optional-chaining member access, template-string
  interpolation, `JSON.stringify`, and the literal regex scan
  /"(message|memo|note|comment)":\s*"([^"]+)"/i used as a last-resort
  message lookup.  `undefined` is `none : Option JsValue`.  External
  effects are explicit parameters: environment variables and the push
  outcome live in `Env`, and the platform date parser/formatters
  (`new Date` + `Intl` formatting) live in `DateEnv`.
-/

namespace JicooNotifier

/-- Parsed JSON values as delivered to the webhook handler by
`request.json()`.  Numbers are restricted to integers; no branch decision
in the handler depends on fractional values.  Objects are association
lists with the keys distinct, which is what `JSON.parse` produces. -/
inductive JsValue where
  | null : JsValue
  | bool (b : Bool) : JsValue
  | num (n : Int) : JsValue
  | str (s : String) : JsValue
  | arr (elems : List JsValue) : JsValue
  | obj (fields : List (String × JsValue)) : JsValue

/-- JavaScript truthiness of a possibly-`undefined` JSON value: `undefined`,
`null`, `false`, `0` and `""` are falsy, everything else (including empty
arrays and objects) is truthy. -/
def truthy : Option JsValue → Bool
  | none => false
  | some JsValue.null => false
  | some (JsValue.bool b) => b
  | some (JsValue.num n) => n != 0
  | some (JsValue.str s) => s != ""
  | some (JsValue.arr _) => true
  | some (JsValue.obj _) => true

/-- JavaScript `a || b`. -/
def jsOr (a b : Option JsValue) : Option JsValue :=
  if truthy a then a else b

/-- First binding of a key in an object's field list. -/
def lookupField : List (String × JsValue) → String → Option JsValue
  | [], _ => none
  | (k2, v) :: rest, k => if k2 = k then some v else lookupField rest k

/-- JavaScript `v?.k`: member access with optional chaining.  On
`undefined`/`null` and on non-objects the named-key accesses used by the
handler all yield `undefined`. -/
def jsGet (v : Option JsValue) (k : String) : Option JsValue :=
  match v with
  | some (JsValue.obj fields) => lookupField fields k
  | _ => none

mutual
/-- JavaScript `String(v)` — the conversion applied by template-string
interpolation. -/
def jsToString : JsValue → String
  | JsValue.null => "null"
  | JsValue.bool b => if b then "true" else "false"
  | JsValue.num n => toString n
  | JsValue.str s => s
  | JsValue.arr xs => String.intercalate "," (arrElemStrs xs)
  | JsValue.obj _ => "[object Object]"

/-- Element conversions of `Array.prototype.toString` (join with ","):
`null` elements print as the empty string. -/
def arrElemStrs : List JsValue → List String
  | [] => []
  | JsValue.null :: rest => "" :: arrElemStrs rest
  | v :: rest => jsToString v :: arrElemStrs rest
end

/-- Template interpolation of a possibly-`undefined` value. -/
def jsDisplay : Option JsValue → String
  | none => "undefined"
  | some v => jsToString v

def hexDigit (n : Nat) : Char :=
  if n < 10 then Char.ofNat (48 + n) else Char.ofNat (97 + n - 10)

/-- String-character escaping of `JSON.stringify`. -/
def escapeChar (c : Char) : String :=
  if c = '"' then "\\\""
  else if c = '\\' then "\\\\"
  else if c = '\n' then "\\n"
  else if c = '\r' then "\\r"
  else if c = '\t' then "\\t"
  else if c = '\x08' then "\\b"
  else if c = '\x0c' then "\\f"
  else if c.toNat < 32 then
    "\\u00" ++ String.singleton (hexDigit (c.toNat / 16)) ++
      String.singleton (hexDigit (c.toNat % 16))
  else String.singleton c

def escapeJson (s : String) : String :=
  String.join (s.toList.map escapeChar)

def quoteJson (s : String) : String :=
  "\"" ++ escapeJson s ++ "\""

mutual
/-- `JSON.stringify(v)` (compact form, no indent argument), as used both for
logging and for the last-resort message scan. -/
def jsonStringify : JsValue → String
  | JsValue.null => "null"
  | JsValue.bool b => if b then "true" else "false"
  | JsValue.num n => toString n
  | JsValue.str s => quoteJson s
  | JsValue.arr xs => "[" ++ String.intercalate "," (jsonElems xs) ++ "]"
  | JsValue.obj fs => "\x7b" ++ String.intercalate "," (jsonFields fs) ++ "\x7d"

def jsonElems : List JsValue → List String
  | [] => []
  | v :: rest => jsonStringify v :: jsonElems rest

def jsonFields : List (String × JsValue) → List String
  | [] => []
  | (k, v) :: rest => (quoteJson k ++ ":" ++ jsonStringify v) :: jsonFields rest
end

/-- JavaScript `\s` character class (the members that can occur here). -/
def isJsSpace (c : Char) : Bool :=
  c = ' ' || c = '\t' || c = '\n' || c = '\r' || c = '\x0b' || c = '\x0c' ||
    c = ' '

/-- Case-insensitive match (the regex carries the `i` flag) of a literal
key against the head of the text; returns the remaining text. -/
def stripKeyCI : List Char → List Char → Option (List Char)
  | [], cs => some cs
  | _ :: _, [] => none
  | k :: ks, c :: cs => if k.toLower = c.toLower then stripKeyCI ks cs else none

/-- After an opening quote, try to complete one alternative of the pattern
`"(message|memo|note|comment)":\s*"([^"]+)"`, returning capture group 2. -/
def matchOneKey (key : List Char) (cs : List Char) : Option String :=
  match stripKeyCI key cs with
  | none => none
  | some cs1 =>
    match cs1 with
    | '"' :: ':' :: cs2 =>
      match cs2.dropWhile isJsSpace with
      | '"' :: cs4 =>
        let content := cs4.takeWhile (fun c => c != '"')
        match content, cs4.dropWhile (fun c => c != '"') with
        | [], _ => none
        | _ :: _, '"' :: _ => some (String.mk content)
        | _ :: _, _ => none
      | _ => none
    | _ => none

/-- Alternation order of the regex group: `message`, `memo`, `note`,
`comment`. -/
def msgKeys : List (List Char) :=
  [String.toList "message", String.toList "memo",
   String.toList "note", String.toList "comment"]

def tryKeys : List (List Char) → List Char → Option String
  | [], _ => none
  | k :: ks, cs =>
    match matchOneKey k cs with
    | some v => some v
    | none => tryKeys ks cs

/-- Leftmost match of `/"(message|memo|note|comment)":\s*"([^"]+)"/i` over
the serialized payload, returning capture group 2 (`match[2]`). -/
def scanForMessage : List Char → Option String
  | [] => none
  | '"' :: rest =>
    match tryKeys msgKeys rest with
    | some v => some v
    | none => scanForMessage rest
  | _ :: rest => scanForMessage rest

/-- `const obj = payload?.object || payload?.data || payload;` -/
def objOf (payload : JsValue) : Option JsValue :=
  jsOr (jsGet (some payload) "object")
    (jsOr (jsGet (some payload) "data") (some payload))

/-- `const contact = obj?.contact || obj?.guest || {};` -/
def contactFrom (obj : Option JsValue) : Option JsValue :=
  jsOr (jsGet obj "contact") (jsOr (jsGet obj "guest") (some (JsValue.obj [])))

def contactOf (payload : JsValue) : Option JsValue :=
  contactFrom (objOf payload)

/-- `contact?.name || contact?.lastName || obj?.guest_name || '名前なし'` -/
def nameFrom (obj contact : Option JsValue) : Option JsValue :=
  jsOr (jsGet contact "name") (jsOr (jsGet contact "lastName")
    (jsOr (jsGet obj "guest_name") (some (JsValue.str "名前なし"))))

def nameOf (payload : JsValue) : Option JsValue :=
  nameFrom (objOf payload) (contactOf payload)

/-- `contact?.email || obj?.email || '不明'` -/
def emailFrom (obj contact : Option JsValue) : Option JsValue :=
  jsOr (jsGet contact "email") (jsOr (jsGet obj "email")
    (some (JsValue.str "不明")))

def emailOf (payload : JsValue) : Option JsValue :=
  emailFrom (objOf payload) (contactOf payload)

/-- `obj?.startedAt || obj?.startAt || obj?.start_at || '不明'` -/
def startFrom (obj : Option JsValue) : Option JsValue :=
  jsOr (jsGet obj "startedAt") (jsOr (jsGet obj "startAt")
    (jsOr (jsGet obj "start_at") (some (JsValue.str "不明"))))

def startAtOf (payload : JsValue) : Option JsValue :=
  startFrom (objOf payload)

/-- `obj?.endedAt || obj?.endAt || obj?.end_at || ''` -/
def endFrom (obj : Option JsValue) : Option JsValue :=
  jsOr (jsGet obj "endedAt") (jsOr (jsGet obj "endAt")
    (jsOr (jsGet obj "end_at") (some (JsValue.str ""))))

def endAtOf (payload : JsValue) : Option JsValue :=
  endFrom (objOf payload)

/-- `const val = a.value || a.answer || a.text;` -/
def answerVal (a : JsValue) : Option JsValue :=
  jsOr (jsGet (some a) "value")
    (jsOr (jsGet (some a) "answer") (jsGet (some a) "text"))

/-- `const question = a.title || a.label || a.question;` -/
def answerQuestion (a : JsValue) : Option JsValue :=
  jsOr (jsGet (some a) "title")
    (jsOr (jsGet (some a) "label") (jsGet (some a) "question"))

/-- The `answers.map` callback.  `typeof a === 'object'` holds for objects,
arrays and `null`; reading `a.value` on a `null` element throws a
TypeError (modelled `.error ()`), and nothing inside the dispatcher
catches it.  Other entries are returned through `String(a)` (the join). -/
def renderAnswer : JsValue → Except Unit String
  | JsValue.null => Except.error ()
  | JsValue.obj fs =>
    let v := answerVal (JsValue.obj fs)
    let q := answerQuestion (JsValue.obj fs)
    Except.ok (if truthy q && truthy v then
        "【" ++ jsDisplay q ++ "】\n" ++ jsDisplay v
      else if truthy v then jsDisplay v
      else jsonStringify (JsValue.obj fs))
  | JsValue.arr xs =>
    let v := answerVal (JsValue.arr xs)
    let q := answerQuestion (JsValue.arr xs)
    Except.ok (if truthy q && truthy v then
        "【" ++ jsDisplay q ++ "】\n" ++ jsDisplay v
      else if truthy v then jsDisplay v
      else jsonStringify (JsValue.arr xs))
  | JsValue.bool b => Except.ok (jsToString (JsValue.bool b))
  | JsValue.num n => Except.ok (jsToString (JsValue.num n))
  | JsValue.str s => Except.ok (jsToString (JsValue.str s))

/-- `obj.answers.map(...).join('\n\n')`. -/
def renderAnswers (xs : List JsValue) : Except Unit String :=
  (xs.mapM renderAnswer).map (String.intercalate "\n\n")

/-- The `messageText` computation: the structured answers branch when
`obj.answers` is a non-empty array, otherwise the direct
`obj?.message || payload?.message` field when truthy, otherwise the regex
scan over `JSON.stringify(payload)` (whose dead catch swallows nothing),
defaulting to the initial `'なし'`. -/
def messageTextOf (payload : JsValue) : Except Unit String :=
  match jsGet (objOf payload) "answers" with
  | some (JsValue.arr (x :: xs)) => renderAnswers (x :: xs)
  | _ =>
    let m := jsOr (jsGet (objOf payload) "message")
      (jsGet (some payload) "message")
    if truthy m then Except.ok (jsDisplay m)
    else
      match scanForMessage (jsonStringify payload).toList with
      | some v => Except.ok v
      | none => Except.ok "なし"

/-- Platform date support: `new Date(string)` parsing to a millisecond
timestamp, `toLocaleString('ja-JP', ...)` and
`toLocaleTimeString('ja-JP', ...)` rendering of a valid time value. -/
structure DateEnv where
  parse : String → Option Int
  fmtDateTime : Int → String
  fmtTime : Int → String

/-- The time value of `new Date(v)` for a parsed-JSON argument: numbers are
timestamps, `null`/booleans coerce through `ToNumber`, everything else is
string-converted and parsed.  `none` is an invalid date. -/
def dateParse (env : DateEnv) : JsValue → Option Int
  | JsValue.num n => some n
  | JsValue.bool b => some (if b then 1 else 0)
  | JsValue.null => some 0
  | v => env.parse (jsToString v)

/-- `new Date(v).toLocale*String(...)`: formatting an invalid date returns
the string "Invalid Date"; it does not throw. -/
def jsNewDateFormat (env : DateEnv) (v : Option JsValue) (fmt : Int → String) :
    String :=
  match v with
  | none => "Invalid Date"
  | some x =>
    match dateParse env x with
    | some t => fmt t
    | none => "Invalid Date"

/-- JavaScript `startAt !== '不明'` (negated): strict equality holds only
for the string value itself. -/
def isUnknownStr : Option JsValue → Bool
  | some (JsValue.str s) => s == "不明"
  | _ => false

/-- The `timeStr` computation.  The source contains the guarded
formatting block twice in a row (lines 106-120 and 121-134 of route.ts);
the two copies are identical, so one evaluation suffices.  Since none of
the operations inside the `try` can throw for JSON-derived arguments and
constant valid options, the raw-string fallback in the `catch` is
unreachable. -/
def timeStrOf (env : DateEnv) (payload : JsValue) : String :=
  let startAt := startAtOf payload
  let endAt := endAtOf payload
  if isUnknownStr startAt then jsDisplay startAt
  else
    let startDate := jsNewDateFormat env startAt env.fmtDateTime
    let endDate :=
      if truthy endAt then jsNewDateFormat env endAt env.fmtTime else ""
    if endDate != "" then startDate ++ "〜" ++ endDate else startDate

/-- The fixed message template (`textMessage`), with the notes value from
`messageTextOf` (whose TypeError, if any, propagates). -/
def textMessageOf (env : DateEnv) (payload : JsValue) : Except Unit String :=
  (messageTextOf payload).map fun messageText =>
    "【🔔 Jicoo 新規予約通知】\n👤 お名前: " ++ jsDisplay (nameOf payload) ++
      " 様\n📅 日時: " ++ timeStrOf env payload ++
      "\n✉️ メール: " ++ jsDisplay (emailOf payload) ++
      "\n📝 メッセージ/備考:\n" ++ messageText

/-- The LINE SDK client value produced by `getLineClient`. -/
structure MessagingApiClient where
  channelAccessToken : String

/-- Process environment and external-call behaviour:
`LINE_CHANNEL_ACCESS_TOKEN`, `LINE_ADMIN_USER_ID` (absent = `none`),
whether the outbound push call fails, and the platform date support. -/
structure Env where
  lineChannelAccessToken : Option String
  lineAdminUserId : Option String
  pushFails : Bool
  dateEnv : DateEnv

/-- `getLineClient`: throws when the access token is undefined or empty
(`if (!channelAccessToken) throw ...`). -/
def getLineClient (env : Env) : Except String MessagingApiClient :=
  match env.lineChannelAccessToken with
  | none =>
    Except.error
      "LINE_CHANNEL_ACCESS_TOKEN is not defined in environment variables."
  | some tok =>
    if tok = "" then
      Except.error
        "LINE_CHANNEL_ACCESS_TOKEN is not defined in environment variables."
    else Except.ok { channelAccessToken := tok }

/-- `client.pushMessage(...)`: the external call, which may reject. -/
def pushMessage (env : Env) (_client : MessagingApiClient) (_to : String)
    (_text : String) : Except String Unit :=
  if env.pushFails then Except.error "LINE API send error" else Except.ok ()

/-- What happened on the outbound side of one dispatch. -/
inductive SendOutcome where
  | skippedNoRecipient : SendOutcome
  | clientFailed : SendOutcome
  | pushFailed : SendOutcome
  | sent : SendOutcome

/-- Whether the outbound push call itself was attempted. -/
def SendOutcome.pushAttempted : SendOutcome → Bool
  | SendOutcome.pushFailed => true
  | SendOutcome.sent => true
  | _ => false

/-- Observable result of a completed (non-throwing) dispatch. -/
structure ProcResult where
  outcome : SendOutcome
  text : Option String

/-- The `try { getLineClient(); pushMessage(...) } catch (error) { log }`
block: both a client-construction error and a push rejection are caught
and only logged. -/
def sendNotification (env : Env) (dest text : String) : SendOutcome :=
  match getLineClient env with
  | Except.error _ => SendOutcome.clientFailed
  | Except.ok client =>
    match pushMessage env client dest text with
    | Except.error _ => SendOutcome.pushFailed
    | Except.ok _ => SendOutcome.sent

/-- `processAndSendNotification(payload)`: missing or empty
`LINE_ADMIN_USER_ID` logs and returns before any extraction; otherwise the
message is extracted and formatted (a TypeError there propagates) and the
guarded send block runs. -/
def processAndSendNotification (env : Env) (payload : JsValue) :
    Except Unit ProcResult :=
  match env.lineAdminUserId with
  | none => Except.ok { outcome := SendOutcome.skippedNoRecipient, text := none }
  | some adminUserId =>
    if adminUserId = "" then
      Except.ok { outcome := SendOutcome.skippedNoRecipient, text := none }
    else
      (textMessageOf env.dateEnv payload).map fun t =>
        { outcome := sendNotification env adminUserId t, text := some t }

/-- HTTP response of the route: status code plus the two JSON body fields. -/
structure HttpResponse where
  status : Nat
  bodyStatus : String
  bodyMessage : String

def successResponse : HttpResponse :=
  { status := 200, bodyStatus := "success",
    bodyMessage := "Webhook received and processed." }

def errorResponse : HttpResponse :=
  { status := 500, bodyStatus := "error",
    bodyMessage := "Internal Server Error" }

/-- The `POST` handler.  `body` is the outcome of `request.json()`:
`none` when the body is not valid JSON (the rejection is caught by the
handler's try/catch), `some payload` otherwise. -/
def POST (env : Env) (body : Option JsValue) : HttpResponse :=
  match body with
  | none => errorResponse
  | some payload =>
    match processAndSendNotification env payload with
    | Except.ok _ => successResponse
    | Except.error _ => errorResponse

/-- Concrete stand-in for the platform date support, used to instantiate
closed statements: it parses exactly the two ISO timestamps used in the
examples and formats their time values the way `Intl` renders them in the
`Asia/Tokyo` zone. -/
def demoDateEnv : DateEnv :=
  { parse := fun s =>
      if s = "2026-02-27T06:00:00.000Z" then some 1772172000000
      else if s = "2026-02-27T06:30:00.000Z" then some 1772173800000
      else none
  , fmtDateTime := fun t =>
      if t = 1772172000000 then "2026/02/27 15:00" else "?"
  , fmtTime := fun t =>
      if t = 1772173800000 then "15:30" else "?" }

/-- Environment with both configuration values set and a healthy push. -/
def demoEnv : Env :=
  { lineChannelAccessToken := some "token123"
  , lineAdminUserId := some "U123"
  , pushFails := false
  , dateEnv := demoDateEnv }

/-- Both configuration values set, but the outbound push call rejects. -/
def demoEnvPushFails : Env :=
  { demoEnv with pushFails := true }

/-- Recipient id configured, access token absent. -/
def demoEnvNoToken : Env :=
  { demoEnv with lineChannelAccessToken := none }

/-- Access token configured, recipient id absent. -/
def demoEnvNoRecipient : Env :=
  { demoEnv with lineAdminUserId := none }

/-- A typical nested booking payload. -/
def samplePayload : JsValue :=
  JsValue.obj
    [("data", JsValue.obj
        [("guest", JsValue.obj
            [("name", JsValue.str "山田太郎"),
             ("email", JsValue.str "taro@example.com")]),
         ("start_at", JsValue.str "2026-02-27T06:00:00.000Z"),
         ("end_at", JsValue.str "2026-02-27T06:30:00.000Z"),
         ("message", JsValue.str "よろしくお願いします")])]

/-- The message text the handler composes for `samplePayload`. -/
def sampleText : String :=
  "【🔔 Jicoo 新規予約通知】\n👤 お名前: 山田太郎 様\n📅 日時: 2026/02/27 15:00〜15:30\n✉️ メール: taro@example.com\n📝 メッセージ/備考:\nよろしくお願いします"

/-- A payload whose start time is not a parseable timestamp. -/
def unparseableStartPayload : JsValue :=
  JsValue.obj [("start_at", JsValue.str "not-a-date"),
               ("message", JsValue.str "hi")]

/-- A payload carrying no guest-name information at all. -/
def noNamePayload : JsValue :=
  JsValue.obj [("email", JsValue.str "x@y.z")]

/-- Empty structured answer list inside the container, a message field both
inside the container and at the top level. -/
def nestedMessagePayload : JsValue :=
  JsValue.obj
    [("object", JsValue.obj
        [("answers", JsValue.arr []), ("message", JsValue.str "A")]),
     ("message", JsValue.str "B")]

/-- Flat payload: empty structured answer list, top-level message field. -/
def flatMessagePayload : JsValue :=
  JsValue.obj [("answers", JsValue.arr []),
               ("message", JsValue.str "hello")]

/-- Empty structured answer list and a present-but-empty message field
inside the container, a non-empty message field at the top level. -/
def emptyContainerMessagePayload : JsValue :=
  JsValue.obj
    [("object", JsValue.obj
        [("answers", JsValue.arr []), ("message", JsValue.str "")]),
     ("message", JsValue.str "B")]

/-- One structured answer entry with a title and a value. -/
def answersPayload : JsValue :=
  JsValue.obj
    [("answers", JsValue.arr
        [JsValue.obj [("title", JsValue.str "Q"),
                      ("value", JsValue.str "V")]])]

/-- `object` member with no message-like data, `data` member carrying a
`message` key that only the serialized-payload scan can reach. -/
def dataScanPayloadA : JsValue :=
  JsValue.obj
    [("object", JsValue.obj [("x", JsValue.str "y")]),
     ("data", JsValue.obj [("message", JsValue.str "D")])]

/-- Same `object` member as `dataScanPayloadA`, empty `data` member. -/
def dataScanPayloadB : JsValue :=
  JsValue.obj
    [("object", JsValue.obj [("x", JsValue.str "y")]),
     ("data", JsValue.obj [])]

/-- Both `object` and `data` members present, `contact` and `guest` both
present inside the container, name only under `lastName`. -/
def precedencePayload : JsValue :=
  JsValue.obj
    [("object", JsValue.obj
        [("contact", JsValue.obj [("lastName", JsValue.str "Yamada")]),
         ("guest", JsValue.obj [("name", JsValue.str "Guest")])]),
     ("data", JsValue.obj [("guest_name", JsValue.str "FromData")])]

/-- Payload whose first two start-time spellings are present but empty and
whose third spelling holds the actual timestamp. -/
def startFallbackPayload : JsValue :=
  JsValue.obj
    [("startedAt", JsValue.str ""), ("startAt", JsValue.str ""),
     ("start_at", JsValue.str "2026-02-27T06:00:00.000Z")]

/-- Modelled from the spec wording of the fallback policy: the first
candidate that is present and non-empty, else the default placeholder. -/
def firstNonEmpty : List (Option String) → String → String
  | [], d => d
  | none :: rest, d => firstNonEmpty rest d
  | some s :: rest, d => if s = "" then firstNonEmpty rest d else s

/-- A right-nested `||` chain over string-or-absent candidates ending in a
string default — the shape of the extraction chains in the source. -/
def chainOr : List (Option String) → String → Option JsValue
  | [], d => some (JsValue.str d)
  | c :: rest, d => jsOr (Option.map JsValue.str c) (chainOr rest d)

theorem chainOr_eq_firstNonEmpty (cs : List (Option String)) (d : String) :
    chainOr cs d = some (JsValue.str (firstNonEmpty cs d)) := by
  induction cs with
  | nil => rfl
  | cons c rest ih =>
    cases c with
    | none => simpa [chainOr, jsOr, truthy, firstNonEmpty] using ih
    | some a =>
      by_cases ha : a = ""
      · subst ha
        simpa [chainOr, jsOr, truthy, firstNonEmpty] using ih
      · simp [chainOr, jsOr, truthy, firstNonEmpty, ha]

/-- C1: for every payload for which the recipient identifier and access
token are configured (set and non-empty) and whose extraction/formatting
completes, if the outbound push-message call fails, the failure is caught
inside the dispatcher (the dispatch completes without error, recording only
a failed push) and the request handler still returns the 200 response with
the success status body. -/
theorem c1_push_failure_caught_returns_success (env : Env) (payload : JsValue)
    (uid tok msg : String)
    (hu : env.lineAdminUserId = some uid) (hu2 : uid ≠ "")
    (ht : env.lineChannelAccessToken = some tok) (ht2 : tok ≠ "")
    (hf : env.pushFails = true)
    (hm : textMessageOf env.dateEnv payload = Except.ok msg) :
    processAndSendNotification env payload =
      Except.ok { outcome := SendOutcome.pushFailed, text := some msg } ∧
    POST env (some payload) = successResponse := by
  have hp : processAndSendNotification env payload =
      Except.ok { outcome := SendOutcome.pushFailed, text := some msg } := by
    simp [processAndSendNotification, hu, hu2, hm, sendNotification,
      getLineClient, ht, ht2, pushMessage, hf, Except.map]
  exact ⟨hp, by simp [POST, hp]⟩

/-- C1 witness: with both configuration values set and a failing push, the
sample payload still gets a 200 success response. -/
theorem c1_witness :
    POST demoEnvPushFails (some samplePayload) = successResponse :=
  (c1_push_failure_caught_returns_success demoEnvPushFails samplePayload
    "U123" "token123" _ rfl (by decide) rfl (by decide) rfl rfl).2

/-- C2 counterexample: recipient id configured, access token absent — the
client-construction error is caught inside the dispatcher (which completes
without error, recording a failed client construction), and the handler
returns the 200 success response, not a 500-level one. -/
theorem c2_counterexample :
    demoEnvNoToken.lineChannelAccessToken = none ∧
    demoEnvNoToken.lineAdminUserId = some "U123" ∧
    processAndSendNotification demoEnvNoToken samplePayload =
      Except.ok { outcome := SendOutcome.clientFailed, text := some sampleText } ∧
    POST demoEnvNoToken (some samplePayload) = successResponse ∧
    successResponse.status = 200 ∧ (200 : Nat) < 500 :=
  ⟨rfl, rfl, rfl, rfl, rfl, by decide⟩

/-- C2 amended: for every well-formed payload whose extraction completes,
if the recipient identifier is configured but the access token is absent,
the error raised during client construction is caught by the dispatcher's
internal send guard (the same catch that swallows push failures), never
reaches the top-level request guard, the push call is not attempted, and
the handler returns the 200 success response. -/
theorem c2_token_missing_caught_in_dispatcher (env : Env) (payload : JsValue)
    (uid msg : String)
    (hu : env.lineAdminUserId = some uid) (hu2 : uid ≠ "")
    (ht : env.lineChannelAccessToken = none)
    (hm : textMessageOf env.dateEnv payload = Except.ok msg) :
    processAndSendNotification env payload =
      Except.ok { outcome := SendOutcome.clientFailed, text := some msg } ∧
    SendOutcome.clientFailed.pushAttempted = false ∧
    POST env (some payload) = successResponse := by
  have hp : processAndSendNotification env payload =
      Except.ok { outcome := SendOutcome.clientFailed, text := some msg } := by
    simp [processAndSendNotification, hu, hu2, hm, sendNotification,
      getLineClient, ht, Except.map]
  exact ⟨hp, rfl, by simp [POST, hp]⟩

/-- C2 amended witness. -/
theorem c2_witness :
    POST demoEnvNoToken (some samplePayload) = successResponse :=
  (c2_token_missing_caught_in_dispatcher demoEnvNoToken samplePayload
    "U123" _ rfl (by decide) rfl rfl).2.2

/-- C3: for every environment, a request whose body cannot be parsed as
JSON gets the 500 response whose body carries the error status field; the
handler returns normally (no exception escapes). -/
theorem c3_malformed_body_returns_500_error (env : Env) :
    POST env none = errorResponse ∧ errorResponse.status = 500 ∧
    errorResponse.bodyStatus = "error" :=
  ⟨rfl, rfl, rfl⟩

/-- C3 witness at the concrete demo environment. -/
theorem c3_witness :
    POST demoEnv none = errorResponse :=
  (c3_malformed_body_returns_500_error demoEnv).1

/-- C4: for every well-formed payload, if the recipient-identifier
configuration value is absent, the dispatcher returns without error before
any extraction, the outbound push is never attempted, and the handler
returns the 200 success response. -/
theorem c4_missing_recipient_skips_push_returns_success (env : Env)
    (payload : JsValue) (h : env.lineAdminUserId = none) :
    processAndSendNotification env payload =
      Except.ok { outcome := SendOutcome.skippedNoRecipient, text := none } ∧
    SendOutcome.skippedNoRecipient.pushAttempted = false ∧
    POST env (some payload) = successResponse := by
  have hp : processAndSendNotification env payload =
      Except.ok { outcome := SendOutcome.skippedNoRecipient, text := none } := by
    simp [processAndSendNotification, h]
  exact ⟨hp, rfl, by simp [POST, hp]⟩

/-- C4 witness. -/
theorem c4_witness :
    POST demoEnvNoRecipient (some samplePayload) = successResponse :=
  (c4_missing_recipient_skips_push_returns_success demoEnvNoRecipient
    samplePayload rfl).2.2

/-- C5 (code bug): an unparseable start-time string does not make the
dispatcher raise, but the time section of the formatted message is the
string "Invalid Date", not the raw start string — JavaScript formats an
invalid `Date` without throwing, so the raw-string fallback in the `catch`
block (whose comment promises to display the raw value) is unreachable. -/
theorem c5_unparseable_start_renders_invalid_date :
    demoDateEnv.parse "not-a-date" = none ∧
    startAtOf unparseableStartPayload = some (JsValue.str "not-a-date") ∧
    timeStrOf demoDateEnv unparseableStartPayload = "Invalid Date" ∧
    ("Invalid Date" : String) ≠ "not-a-date" ∧
    textMessageOf demoDateEnv unparseableStartPayload =
      Except.ok ("【🔔 Jicoo 新規予約通知】\n👤 お名前: 名前なし 様\n📅 日時: " ++
        "Invalid Date\n✉️ メール: 不明\n📝 メッセージ/備考:\nhi") :=
  ⟨rfl, rfl, rfl, by decide, rfl⟩

/-- C6: for every payload whose three start-time spellings (`startedAt`,
`startAt` — the structured spellings — then the `start_at` fallback
spelling, all looked up in the chosen container) are strings or absent,
the extracted start-time value is the first present non-empty candidate in
that order, and the placeholder "不明" ("unknown") when none qualifies. -/
theorem c6_start_time_first_nonempty_fallback (payload : JsValue)
    (s1 s2 s3 : Option String)
    (h1 : jsGet (objOf payload) "startedAt" = Option.map JsValue.str s1)
    (h2 : jsGet (objOf payload) "startAt" = Option.map JsValue.str s2)
    (h3 : jsGet (objOf payload) "start_at" = Option.map JsValue.str s3) :
    startAtOf payload =
      some (JsValue.str (firstNonEmpty [s1, s2, s3] "不明")) := by
  have hchain : startAtOf payload = chainOr [s1, s2, s3] "不明" := by
    simp only [startAtOf, startFrom, h1, h2, h3, chainOr]
  rw [hchain, chainOr_eq_firstNonEmpty]

/-- C6 witness: empty spellings are skipped in favour of the populated
fallback spelling. -/
theorem c6_witness :
    startAtOf startFallbackPayload =
      some (JsValue.str (firstNonEmpty
        [some "", some "", some "2026-02-27T06:00:00.000Z"] "不明")) :=
  c6_start_time_first_nonempty_fallback startFallbackPayload
    (some "") (some "") (some "2026-02-27T06:00:00.000Z") rfl rfl rfl

/-- C7 counterexample: with no guest name anywhere, the name slot of the
formatted message holds the literal "名前なし" ("no name"), which is not
the "不明" ("unknown") placeholder the claim names (the one the code uses
for the email and start-time slots). -/
theorem c7_counterexample :
    jsGet (contactOf noNamePayload) "name" = none ∧
    jsGet (contactOf noNamePayload) "lastName" = none ∧
    jsGet (objOf noNamePayload) "guest_name" = none ∧
    nameOf noNamePayload = some (JsValue.str "名前なし") ∧
    textMessageOf demoDateEnv noNamePayload =
      Except.ok ("【🔔 Jicoo 新規予約通知】\n👤 お名前: 名前なし 様\n📅 日時: " ++
        "不明\n✉️ メール: x@y.z\n📝 メッセージ/備考:\nなし") ∧
    ("名前なし" : String) ≠ "不明" :=
  ⟨rfl, rfl, rfl, rfl, rfl, by decide⟩

/-- C7 amended: for every payload in which no guest name is found at the
nested guest-object location (`name`, `lastName`) or the container-level
`guest_name` field, the name slot of the formatted message contains the
literal placeholder "名前なし" ("no name"). -/
theorem c7_no_name_placeholder_namenashi (env : DateEnv) (payload : JsValue)
    (msg : String)
    (h1 : jsGet (contactOf payload) "name" = none)
    (h2 : jsGet (contactOf payload) "lastName" = none)
    (h3 : jsGet (objOf payload) "guest_name" = none)
    (hm : messageTextOf payload = Except.ok msg) :
    nameOf payload = some (JsValue.str "名前なし") ∧
    textMessageOf env payload =
      Except.ok ("【🔔 Jicoo 新規予約通知】\n👤 お名前: " ++ "名前なし" ++
        " 様\n📅 日時: " ++ timeStrOf env payload ++ "\n✉️ メール: " ++
        jsDisplay (emailOf payload) ++ "\n📝 メッセージ/備考:\n" ++ msg) := by
  have hname : nameOf payload = some (JsValue.str "名前なし") := by
    simp [nameOf, nameFrom, h1, h2, h3, jsOr, truthy]
  refine ⟨hname, ?_⟩
  simp [textMessageOf, hm, hname, jsDisplay, jsToString, Except.map]

/-- C7 amended witness. -/
theorem c7_witness :
    nameOf noNamePayload = some (JsValue.str "名前なし") :=
  (c7_no_name_placeholder_namenashi demoDateEnv noNamePayload "なし"
    rfl rfl rfl rfl).1

/-- C8 counterexample: the structured answer list is present but empty and
a top-level free-text message field "B" exists, yet the notes section is
"A" — the container's own message field — because `obj?.message` is
consulted before `payload?.message`. -/
theorem c8_counterexample :
    jsGet (objOf nestedMessagePayload) "answers" = some (JsValue.arr []) ∧
    jsGet (some nestedMessagePayload) "message" = some (JsValue.str "B") ∧
    messageTextOf nestedMessagePayload = Except.ok "A" ∧
    ("A" : String) ≠ "B" :=
  ⟨rfl, rfl, rfl, by decide⟩

/-- C8 amended: for every payload whose structured answer list is present
but empty, the notes section equals verbatim the chosen container's
message field when that is a non-empty string; when the container's
message field is falsy (absent, null, false, 0 or the empty string), it
equals the top-level message field's value verbatim when that is a
non-empty string (for a flat payload the container is the top level, so
the original claim holds there). -/
theorem c8_empty_answers_message_field_verbatim (payload : JsValue)
    (hA : jsGet (objOf payload) "answers" = some (JsValue.arr [])) :
    (∀ s : String, jsGet (objOf payload) "message" = some (JsValue.str s) →
      s ≠ "" → messageTextOf payload = Except.ok s) ∧
    (∀ t : String, truthy (jsGet (objOf payload) "message") = false →
      jsGet (some payload) "message" = some (JsValue.str t) → t ≠ "" →
      messageTextOf payload = Except.ok t) := by
  constructor
  · intro s h hs
    simp [messageTextOf, hA, h, jsOr, truthy, jsDisplay, jsToString, hs]
  · intro t h1 h2 ht
    have htt : truthy (some (JsValue.str t)) = true := by simp [truthy, ht]
    simp [messageTextOf, hA, h1, h2, jsOr, htt, jsDisplay, jsToString]

/-- C8 amended witness: the flat payload with a top-level message, and the
payload whose container message is present but empty with a non-empty
top-level message. -/
theorem c8_witness :
    messageTextOf flatMessagePayload = Except.ok "hello" ∧
    messageTextOf emptyContainerMessagePayload = Except.ok "B" :=
  ⟨(c8_empty_answers_message_field_verbatim flatMessagePayload rfl).1
      "hello" rfl (by decide),
   (c8_empty_answers_message_field_verbatim emptyContainerMessagePayload
      rfl).2 "B" rfl rfl (by decide)⟩

/-- C9 counterexample: a structured answer entry with label "Q" and value
"V" is rendered as "【Q】" followed by a newline and "V", not as the
"label: value" shape the claim states. -/
theorem c9_counterexample :
    jsGet (objOf answersPayload) "answers" =
      some (JsValue.arr [JsValue.obj
        [("title", JsValue.str "Q"), ("value", JsValue.str "V")]]) ∧
    messageTextOf answersPayload = Except.ok ("【Q】\nV") ∧
    ("【Q】\nV" : String) ≠ "Q: V" :=
  ⟨rfl, rfl, by decide⟩

/-- C9 amended: for every payload whose structured answer list is present
and non-empty, the notes section is built from that list alone (the direct
message field and the serialized-payload scan are not consulted: the
result is a function of the list only), all entries are joined with a
blank-line separator, and an entry carrying both a label and a value is
rendered as the label enclosed in 【】 followed by a line break and the
value. -/
theorem c9_answers_render_and_join (payload : JsValue) (x : JsValue)
    (xs : List JsValue)
    (hA : jsGet (objOf payload) "answers" = some (JsValue.arr (x :: xs))) :
    messageTextOf payload = renderAnswers (x :: xs) ∧
    renderAnswers (x :: xs) =
      (List.mapM renderAnswer (x :: xs)).map (String.intercalate "\n\n") ∧
    (∀ (fs : List (String × JsValue)) (q v : JsValue),
      answerQuestion (JsValue.obj fs) = some q → truthy (some q) = true →
      answerVal (JsValue.obj fs) = some v → truthy (some v) = true →
      renderAnswer (JsValue.obj fs) =
        Except.ok ("【" ++ jsToString q ++ "】\n" ++ jsToString v)) := by
  refine ⟨by simp [messageTextOf, hA], rfl, ?_⟩
  intro fs q v hq hqt hv hvt
  simp [renderAnswer, hq, hv, hqt, hvt, jsDisplay]

/-- C9 amended witness. -/
theorem c9_witness :
    messageTextOf answersPayload =
      renderAnswers [JsValue.obj
        [("title", JsValue.str "Q"), ("value", JsValue.str "V")]] :=
  (c9_answers_render_and_join answersPayload
    (JsValue.obj [("title", JsValue.str "Q"), ("value", JsValue.str "V")])
    [] rfl).1

/-- C10 counterexample: two payloads with the same `object` member but
different `data` members produce different notes sections — the
last-resort serialized-payload scan reads a `message` key living inside
the `data` member, so the `data` member is not ignored by message
extraction. -/
theorem c10_counterexample :
    jsGet (some dataScanPayloadA) "object" =
      jsGet (some dataScanPayloadB) "object" ∧
    messageTextOf dataScanPayloadA = Except.ok "D" ∧
    messageTextOf dataScanPayloadB = Except.ok "なし" ∧
    ("D" : String) ≠ "なし" :=
  ⟨rfl, rfl, rfl, by decide⟩

/-- C10 amended: for every payload whose `object` and `data` members are
both objects, the container is the `object` member; name, email and both
time extractions are functions of it (the `data` member is ignored by
them, though not by the last-resort serialized scan); within the
container, a `contact` object takes precedence over a `guest` object, and
a `lastName` key is accepted for the name before the flat `guest_name`
fallback. -/
theorem c10_container_precedence (payload : JsValue)
    (po pd : List (String × JsValue))
    (hobj : jsGet (some payload) "object" = some (JsValue.obj po))
    (_hdata : jsGet (some payload) "data" = some (JsValue.obj pd)) :
    objOf payload = some (JsValue.obj po) ∧
    (∀ p2 : JsValue, jsGet (some p2) "object" = some (JsValue.obj po) →
      nameOf p2 = nameOf payload ∧ emailOf p2 = emailOf payload ∧
      startAtOf p2 = startAtOf payload ∧ endAtOf p2 = endAtOf payload) ∧
    (∀ pc pg : List (String × JsValue),
      jsGet (objOf payload) "contact" = some (JsValue.obj pc) →
      jsGet (objOf payload) "guest" = some (JsValue.obj pg) →
      contactOf payload = some (JsValue.obj pc)) ∧
    (∀ ln : String, jsGet (contactOf payload) "name" = none →
      jsGet (contactOf payload) "lastName" = some (JsValue.str ln) →
      ln ≠ "" → nameOf payload = some (JsValue.str ln)) := by
  have hO : objOf payload = some (JsValue.obj po) := by
    simp [objOf, hobj, jsOr, truthy]
  refine ⟨hO, ?_, ?_, ?_⟩
  · intro p2 h2
    have hO2 : objOf p2 = some (JsValue.obj po) := by
      simp [objOf, h2, jsOr, truthy]
    simp [nameOf, emailOf, startAtOf, endAtOf, contactOf, hO, hO2]
  · intro pc pg hc hg
    simp [contactOf, contactFrom, hc, jsOr, truthy]
  · intro ln hn hl hln
    simp [nameOf, nameFrom, hn, hl, jsOr, truthy, hln]

/-- C10 amended witness: `object` wins over `data`, `contact` over
`guest`, and `lastName` provides the name. -/
theorem c10_witness :
    nameOf precedencePayload = some (JsValue.str "Yamada") :=
  (c10_container_precedence precedencePayload
    [("contact", JsValue.obj [("lastName", JsValue.str "Yamada")]),
     ("guest", JsValue.obj [("name", JsValue.str "Guest")])]
    [("guest_name", JsValue.str "FromData")]
    rfl rfl).2.2.2 "Yamada" rfl rfl (by decide)

end JicooNotifier
